import Mathlib

/-! Clang_tidy_Tutorial: `bad_code.cpp` and `good_code.cpp`.

A shallow embedding of the two demonstration files.  Every C++ function is a
state transformer over a `World` (the text written to standard output so far
and the live heap allocations) that either returns a value together with the
new world or stops at a `Fault` (behaviour the C++ standard leaves undefined).

`int` is the 32-bit two's complement type of the usual ILP32/LP64 targets;
values are mathematical integers checked against `INT_MIN`/`INT_MAX`.
-/

set_option linter.unusedVariables false

/-! ## Machine integers -/

/-- Smallest value of a 32-bit `int`. -/
def INT_MIN : Int := -2147483648

/-- Largest value of a 32-bit `int`. -/
def INT_MAX : Int := 2147483647

/-- The integer is representable as a 32-bit `int`. -/
def inInt32 (n : Int) : Prop := INT_MIN ≤ n ∧ n ≤ INT_MAX

instance (n : Int) : Decidable (inInt32 n) := by
  unfold inInt32; exact inferInstance

/-- Two's complement reduction of a mathematical integer into the `int` range
(what the multiplication instruction leaves in the register). -/
def wrapInt32 (n : Int) : Int := (n + 2147483648) % 4294967296 - 2147483648

/-! ## Program state -/

/-- Ways an execution can leave defined behaviour. -/
inductive Fault where
  | signedOverflow
  | invalidDeref
  | invalidDelete
  deriving DecidableEq, Repr

/-- Live heap allocations: address and the `int` stored there. -/
abbrev Heap := List (Nat × Int)

/-- Observable state: standard output written so far and the live heap. -/
structure World where
  stdout : String
  heap : Heap
  deriving DecidableEq, Repr

/-- State at program start: nothing written, nothing allocated. -/
def World.init : World := ⟨"", []⟩

/-- A C++ function body: runs from a world to a result and a new world, or
faults. -/
abbrev Prog (α : Type) := World → Except Fault (α × World)

/-- Return a value, leaving the world as it is. -/
def Prog.ret {α : Type} (a : α) : Prog α := fun w => .ok (a, w)

/-- Sequencing: run `m`, then `f` on its result; a fault stops execution. -/
def Prog.seq {α β : Type} (m : Prog α) (f : α → Prog β) : Prog β := fun w =>
  match m w with
  | .error e => .error e
  | .ok (a, w1) => f a w1

instance : Monad Prog where
  pure := Prog.ret
  bind := Prog.seq

/-! ## Heap primitives -/

/-- An address above every live one. -/
def Heap.fresh : Heap → Nat
  | [] => 1
  | (a, _) :: h => max (a + 1) (Heap.fresh h)

/-- The value stored at a live address. -/
def Heap.read : Heap → Nat → Option Int
  | [], _ => none
  | (a, v) :: h, p => if a = p then some v else Heap.read h p

/-- Removal of the allocation at an address. -/
def Heap.remove (h : Heap) (p : Nat) : Heap := h.filter (fun c => c.1 ≠ p)

/-- Allocation by `new int(v)` or `std::make_unique<int>(v)`: allocation (assumed to succeed)
of one `int` initialised to `v`; yields the pointer. -/
def new_int (v : Int) : Prog Nat := fun w =>
  let p := Heap.fresh w.heap
  .ok (p, { w with heap := (p, v) :: w.heap })

/-- Dereference `*ptr`: reading through a pointer; only a live allocation may be read. -/
def deref (ptr : Nat) : Prog Int := fun w =>
  match Heap.read w.heap ptr with
  | some v => .ok (v, w)
  | none => .error .invalidDeref

/-- Deallocation `delete ptr` (also what the destructor of `std::unique_ptr` runs): the
allocation must be live and stops being so. -/
def delete_int (ptr : Nat) : Prog Unit := fun w =>
  match Heap.read w.heap ptr with
  | some _ => .ok ((), { w with heap := Heap.remove w.heap ptr })
  | none => .error .invalidDelete

/-! ## Output primitives -/

/-- Output `std::cout << s` for a string literal. -/
def cout_str (s : String) : Prog Unit := fun w =>
  .ok ((), { w with stdout := w.stdout ++ s })

/-- Output `std::cout << n` for an `int`: decimal digits, `-` in front when negative. -/
def cout_int (n : Int) : Prog Unit := fun w =>
  .ok ((), { w with stdout := w.stdout ++ toString n })

/-- Output `std::cout << std::endl`: a newline (and a flush, which is not observable
in the text written). -/
def cout_endl : Prog Unit := fun w =>
  .ok ((), { w with stdout := w.stdout ++ "\n" })

/-! ## Arithmetic primitive -/

/-- Product `a * b` on `int`: the mathematical product when representable, undefined
behaviour otherwise. -/
def mul_int (a b : Int) : Prog Int := fun w =>
  if inInt32 (a * b) then .ok (a * b, w) else .error .signedOverflow

/-! ## `bad_code.cpp` -/

namespace bad_code

/-- Embedding of `void unusedVariableExample()`. -/
def unusedVariableExample : Prog Unit := do
  let unusedVar : Int := 42
  cout_str "Exemplo de variável não usada"
  cout_endl

/-- Embedding of `void memoryLeakExample()`: the allocation is never deleted. -/
def memoryLeakExample : Prog Unit := do
  let ptr ← new_int 5
  cout_str "Memory leak: "
  let v ← deref ptr
  cout_int v
  cout_endl

/-- Embedding of `int calculateArea(int width)`. -/
def calculateArea (width : Int) : Prog Int :=
  mul_int width 42

/-- Embedding of `void multipleDeclarations()`: `a = b = c = 0` assigns right
to left. -/
def multipleDeclarations : Prog Unit := do
  let c : Int := 0
  let b : Int := c
  let a : Int := b
  cout_int a
  cout_int b
  cout_int c
  cout_endl

/-- Embedding of `void duplicateBranches(int x)`. -/
def duplicateBranches (x : Int) : Prog Unit :=
  if x > 10 then do
    cout_str "Big number"
    cout_endl
  else do
    cout_str "Big number"
    cout_endl

/-- Embedding of `int main()`. -/
def main : Prog Int := do
  unusedVariableExample
  memoryLeakExample
  let _ ← calculateArea 10
  multipleDeclarations
  duplicateBranches 15
  return 0

end bad_code

/-! ## `good_code.cpp` -/

namespace good_code

/-- Constant `constexpr int kInitialValue = 5;`. -/
def kInitialValue : Int := 5

/-- Constant `constexpr int kExampleWidth = 10;`. -/
def kExampleWidth : Int := 10

/-- Constant `constexpr int kExampleX = 15;`. -/
def kExampleX : Int := 15

/-- Embedding of `void noUnusedVariables()`. -/
def noUnusedVariables : Prog Unit := do
  cout_str "Sem variável não usada"
  cout_endl

/-- Embedding of `void noMemoryLeak()`: the `unique_ptr` deletes its
allocation when the scope ends. -/
def noMemoryLeak : Prog Unit := do
  let ptr ← new_int kInitialValue
  cout_str "Sem memory leak: "
  let v ← deref ptr
  cout_int v
  cout_endl
  delete_int ptr

/-- Constant `constexpr int kDefaultMultiplier = 42;`. -/
def kDefaultMultiplier : Int := 42

/-- Embedding of `int calculateArea(int width)`. -/
def calculateArea (width : Int) : Prog Int :=
  mul_int width kDefaultMultiplier

/-- Embedding of `void separateDeclarations()`. -/
def separateDeclarations : Prog Unit := do
  let a : Int := 0
  let b : Int := 0
  let c : Int := 0
  cout_int a
  cout_int b
  cout_int c
  cout_endl

/-- Embedding of `void noDuplicateBranches(int x)`. -/
def noDuplicateBranches (x : Int) : Prog Unit := do
  cout_str "Big number"
  cout_endl

/-- Embedding of `int main()`. -/
def main : Prog Int := do
  noUnusedVariables
  noMemoryLeak
  let _ ← calculateArea kExampleWidth
  separateDeclarations
  noDuplicateBranches kExampleX
  return 0

end good_code

/-! ## Wraparound reading of the multiplication

The same two functions when signed overflow wraps (as under `-fwrapv`) instead
of being undefined. -/

/-- Product `a * b` on `int` with two's complement wraparound. -/
def mul_int_wrapping (a b : Int) : Prog Int := fun w =>
  .ok (wrapInt32 (a * b), w)

/-- The function `calculateArea` of `bad_code.cpp` with a wrapping product. -/
def bad_code.calculateArea_wrapping (width : Int) : Prog Int :=
  mul_int_wrapping width 42

/-- The function `calculateArea` of `good_code.cpp` with a wrapping product. -/
def good_code.calculateArea_wrapping (width : Int) : Prog Int :=
  mul_int_wrapping width good_code.kDefaultMultiplier

/-! ## Specification vocabulary -/

/-- The run `r`, started in world `w`, returned normally and standard output
is what it was in `w` followed by `line` and a newline. -/
def writesLine {α : Type} (r : Except Fault (α × World)) (w : World) (line : String) : Prop :=
  match r with
  | .ok (_, w1) => w1.stdout = w.stdout ++ line ++ "\n"
  | .error _ => False

instance {α : Type} (r : Except Fault (α × World)) (w : World) (line : String) :
    Decidable (writesLine r w line) := by
  unfold writesLine
  cases r with
  | error e => exact inferInstance
  | ok p => exact inferInstance

/-- The address is live in the heap. -/
def Heap.live (h : Heap) (p : Nat) : Prop := Heap.read h p ≠ none

instance (h : Heap) (p : Nat) : Decidable (Heap.live h p) := by
  unfold Heap.live; exact inferInstance

/-! ## Lemmas on the primitives -/

theorem Heap.lt_fresh (h : Heap) : ∀ c ∈ h, c.1 < Heap.fresh h := by
  induction h with
  | nil => intro c hc; cases hc
  | cons d t ih =>
    intro c hc
    obtain ⟨a, v⟩ := d
    simp only [Heap.fresh]
    rcases List.mem_cons.mp hc with rfl | hc
    · exact lt_of_lt_of_le (Nat.lt_succ_self _) (le_max_left _ _)
    · exact lt_of_lt_of_le (ih c hc) (le_max_right _ _)

theorem Heap.read_eq_none_of_lt (h : Heap) (p : Nat) (hp : ∀ c ∈ h, c.1 < p) :
    Heap.read h p = none := by
  induction h with
  | nil => rfl
  | cons d t ih =>
    obtain ⟨a, v⟩ := d
    have ha : a < p := hp (a, v) (List.mem_cons_self _ _)
    simp only [Heap.read, if_neg (Nat.ne_of_lt ha)]
    exact ih (fun c hc => hp c (List.mem_cons_of_mem _ hc))

theorem Heap.read_fresh (h : Heap) : Heap.read h (Heap.fresh h) = none :=
  Heap.read_eq_none_of_lt h _ (Heap.lt_fresh h)

theorem Heap.remove_fresh (h : Heap) : Heap.remove h (Heap.fresh h) = h := by
  unfold Heap.remove
  rw [List.filter_eq_self]
  intro c hc
  exact decide_eq_true (Nat.ne_of_lt (Heap.lt_fresh h c hc))

theorem Heap.remove_cons_fresh (h : Heap) (v : Int) :
    Heap.remove ((Heap.fresh h, v) :: h) (Heap.fresh h) = h := by
  have := Heap.remove_fresh h
  unfold Heap.remove at this ⊢
  simpa [List.filter_cons] using this

theorem mul_int_ok (a b : Int) (w : World) (h : inInt32 (a * b)) :
    mul_int a b w = .ok (a * b, w) := by
  simp [mul_int, h]

theorem mul_int_overflow (a b : Int) (w : World) (h : ¬ inInt32 (a * b)) :
    mul_int a b w = .error .signedOverflow := by
  simp [mul_int, h]

theorem inInt32_mul_42_iff (width : Int) :
    inInt32 (width * 42) ↔ -51130563 ≤ width ∧ width ≤ 51130563 := by
  unfold inInt32 INT_MIN INT_MAX
  constructor
  · rintro ⟨h1, h2⟩; constructor <;> omega
  · rintro ⟨h1, h2⟩; constructor <;> omega

theorem wrapInt32_spec (n : Int) :
    inInt32 (wrapInt32 n) ∧ (wrapInt32 n - n) % 4294967296 = 0 := by
  unfold inInt32 INT_MIN INT_MAX wrapInt32
  refine ⟨⟨?_, ?_⟩, ?_⟩ <;> omega

theorem wrapInt32_of_inInt32 (n : Int) (h : inInt32 n) : wrapInt32 n = n := by
  unfold inInt32 INT_MIN INT_MAX at h
  unfold wrapInt32
  omega

/-! ## What each function does to the world -/

theorem bad_code.unusedVariableExample_run (w : World) :
    bad_code.unusedVariableExample w =
      .ok ((), ⟨w.stdout ++ "Exemplo de variável não usada" ++ "\n", w.heap⟩) := rfl

theorem bad_code.memoryLeakExample_run (w : World) :
    bad_code.memoryLeakExample w =
      .ok ((), ⟨w.stdout ++ "Memory leak: 5" ++ "\n", (Heap.fresh w.heap, 5) :: w.heap⟩) := by
  simp only [bad_code.memoryLeakExample, bind, Prog.seq, new_int, cout_str, deref, Heap.read,
    if_true, cout_int, cout_endl, String.append_assoc]
  rfl

theorem bad_code.multipleDeclarations_run (w : World) :
    bad_code.multipleDeclarations w = .ok ((), ⟨w.stdout ++ "000" ++ "\n", w.heap⟩) := by
  simp only [bad_code.multipleDeclarations, bind, Prog.seq, cout_int, cout_endl,
    String.append_assoc]
  rfl

theorem bad_code.duplicateBranches_run (x : Int) (w : World) :
    bad_code.duplicateBranches x w = .ok ((), ⟨w.stdout ++ "Big number" ++ "\n", w.heap⟩) := by
  unfold bad_code.duplicateBranches
  split <;> rfl

theorem good_code.noUnusedVariables_run (w : World) :
    good_code.noUnusedVariables w =
      .ok ((), ⟨w.stdout ++ "Sem variável não usada" ++ "\n", w.heap⟩) := rfl

theorem good_code.noMemoryLeak_run (w : World) :
    good_code.noMemoryLeak w = .ok ((), ⟨w.stdout ++ "Sem memory leak: 5" ++ "\n", w.heap⟩) := by
  simp only [good_code.noMemoryLeak, bind, Prog.seq, new_int, cout_str, deref, Heap.read,
    if_true, cout_int, cout_endl, delete_int, Heap.remove_cons_fresh, String.append_assoc]
  rfl

theorem good_code.separateDeclarations_run (w : World) :
    good_code.separateDeclarations w = .ok ((), ⟨w.stdout ++ "000" ++ "\n", w.heap⟩) := by
  simp only [good_code.separateDeclarations, bind, Prog.seq, cout_int, cout_endl,
    String.append_assoc]
  rfl

theorem good_code.noDuplicateBranches_run (x : Int) (w : World) :
    good_code.noDuplicateBranches x w =
      .ok ((), ⟨w.stdout ++ "Big number" ++ "\n", w.heap⟩) := rfl

theorem bad_code.calculateArea_run_bad (width : Int) (w : World) (h : inInt32 (width * 42)) :
    bad_code.calculateArea width w = .ok (width * 42, w) :=
  mul_int_ok width 42 w h

theorem good_code.calculateArea_run_good (width : Int) (w : World) (h : inInt32 (width * 42)) :
    good_code.calculateArea width w = .ok (width * 42, w) :=
  mul_int_ok width 42 w h

theorem not_writesLine_same {α : Type} (a : α) (w : World) (line : String) :
    ¬ writesLine (.ok (a, w)) w line := by
  intro h
  have hlen := congrArg String.length (show w.stdout = w.stdout ++ line ++ "\n" from h)
  have hnl : ("\n" : String).length = 1 := rfl
  rw [String.length_append, String.length_append, hnl] at hlen
  omega

/-! ## The claims -/

/-- C1, as stated, fails: `calculateArea(10)` of `bad_code.cpp`, run from the
initial world, returns without appending any line to standard output. -/
theorem C1_calculateArea_writes_no_line :
    bad_code.calculateArea 10 World.init = .ok (420, World.init) ∧
      ¬ ∃ line : String, writesLine (bad_code.calculateArea 10 World.init) World.init line := by
  have hrun : bad_code.calculateArea 10 World.init = .ok (420, World.init) := rfl
  refine ⟨hrun, ?_⟩
  rintro ⟨line, h⟩
  rw [hrun] at h
  exact not_writesLine_same _ _ line h

/-- C1 (amended): each of the eight `void` functions of the two files, for any
argument and from any world, returns normally having appended exactly its one
fixed line to standard output; `calculateArea` of either file, whenever
`width * 42` is representable, returns normally with the world (standard
output included) unchanged. -/
theorem C1_void_functions_write_one_fixed_line (x width : Int) (w : World)
    (h : inInt32 (width * 42)) :
    writesLine (bad_code.unusedVariableExample w) w "Exemplo de variável não usada" ∧
    writesLine (bad_code.memoryLeakExample w) w "Memory leak: 5" ∧
    writesLine (bad_code.multipleDeclarations w) w "000" ∧
    writesLine (bad_code.duplicateBranches x w) w "Big number" ∧
    writesLine (good_code.noUnusedVariables w) w "Sem variável não usada" ∧
    writesLine (good_code.noMemoryLeak w) w "Sem memory leak: 5" ∧
    writesLine (good_code.separateDeclarations w) w "000" ∧
    writesLine (good_code.noDuplicateBranches x w) w "Big number" ∧
    (∃ r, bad_code.calculateArea width w = .ok (r, w)) ∧
    (∃ r, good_code.calculateArea width w = .ok (r, w)) := by
  refine ⟨?_, ?_, ?_, ?_, ?_, ?_, ?_, ?_, ?_, ?_⟩
  · rw [bad_code.unusedVariableExample_run]; exact rfl
  · rw [bad_code.memoryLeakExample_run]; exact rfl
  · rw [bad_code.multipleDeclarations_run]; exact rfl
  · rw [bad_code.duplicateBranches_run]; exact rfl
  · rw [good_code.noUnusedVariables_run]; exact rfl
  · rw [good_code.noMemoryLeak_run]; exact rfl
  · rw [good_code.separateDeclarations_run]; exact rfl
  · rw [good_code.noDuplicateBranches_run]; exact rfl
  · exact ⟨_, bad_code.calculateArea_run_bad width w h⟩
  · exact ⟨_, good_code.calculateArea_run_good width w h⟩

/-- C1 (amended), instance: `duplicateBranches(11)` run after "x" and a
newline were written, with one live allocation, leaves "x", a newline and the
line "Big number" on standard output. -/
theorem C1_void_functions_write_one_fixed_line_witness :
    inInt32 (7 * 42) ∧
      writesLine (bad_code.duplicateBranches 11 ⟨"x\n", [(3, 9)]⟩) ⟨"x\n", [(3, 9)]⟩
        "Big number" ∧
      bad_code.duplicateBranches 11 ⟨"x\n", [(3, 9)]⟩ = .ok ((), ⟨"x\nBig number\n", [(3, 9)]⟩) :=
  ⟨by decide,
   (C1_void_functions_write_one_fixed_line 11 7 ⟨"x\n", [(3, 9)]⟩ (by decide)).2.2.2.1,
   rfl⟩

/-- C2: whenever `width * 42` is representable as a 32-bit `int`,
`calculateArea(width)` of both files returns exactly `width * 42` and leaves
the world, standard output included, untouched. -/
theorem C2_calculateArea_returns_product (width : Int) (w : World)
    (h : inInt32 (width * 42)) :
    bad_code.calculateArea width w = .ok (width * 42, w) ∧
      good_code.calculateArea width w = .ok (width * 42, w) :=
  ⟨bad_code.calculateArea_run_bad width w h, good_code.calculateArea_run_good width w h⟩

/-- C2, instance: `calculateArea(10)` is 420 in both files and writes nothing. -/
theorem C2_calculateArea_returns_product_witness :
    inInt32 (10 * 42) ∧
      bad_code.calculateArea 10 World.init = .ok (420, World.init) ∧
      good_code.calculateArea 10 World.init = .ok (420, World.init) :=
  ⟨by decide, C2_calculateArea_returns_product 10 World.init (by decide)⟩

/-- C3: `main` of `bad_code.cpp`, started with empty standard output (and any
heap), returns exit code 0 with exactly the four lines "Exemplo de variável
não usada", "Memory leak: 5", "000", "Big number" written, in that order; the
value of `calculateArea(10)` is dropped and the allocation stays live. -/
theorem C3_bad_main_output (heap : Heap) :
    bad_code.main ⟨"", heap⟩ =
      .ok (0, ⟨"Exemplo de variável não usada\nMemory leak: 5\n000\nBig number\n",
        (Heap.fresh heap, 5) :: heap⟩) := by
  have h10 : inInt32 ((10 : Int) * 42) := by decide
  simp only [bad_code.main, bind, Prog.seq, pure, Prog.ret,
    bad_code.unusedVariableExample_run, bad_code.memoryLeakExample_run,
    bad_code.calculateArea_run_bad 10 _ h10, bad_code.multipleDeclarations_run,
    bad_code.duplicateBranches_run, String.append_assoc]
  rfl

/-- C4: `main` of `good_code.cpp`, started with empty standard output (and any
heap), returns exit code 0 with exactly the four lines "Sem variável não
usada", "Sem memory leak: 5", "000", "Big number" written, in that order; the
value of `calculateArea(kExampleWidth)` is dropped and the heap is as before. -/
theorem C4_good_main_output (heap : Heap) :
    good_code.main ⟨"", heap⟩ =
      .ok (0, ⟨"Sem variável não usada\nSem memory leak: 5\n000\nBig number\n", heap⟩) := by
  have h10 : inInt32 (good_code.kExampleWidth * 42) := by decide
  simp only [good_code.main, bind, Prog.seq, pure, Prog.ret,
    good_code.noUnusedVariables_run, good_code.noMemoryLeak_run,
    good_code.calculateArea_run_good good_code.kExampleWidth _ h10,
    good_code.separateDeclarations_run, good_code.noDuplicateBranches_run,
    String.append_assoc]
  rfl

/-- C5, as stated, fails: 51130564 is a 32-bit `int`, yet `calculateArea` of
both files, called on it, stops at a signed integer overflow. -/
theorem C5_calculateArea_overflows :
    inInt32 51130564 ∧
      bad_code.calculateArea 51130564 World.init = .error .signedOverflow ∧
      good_code.calculateArea 51130564 World.init = .error .signedOverflow :=
  ⟨by decide, rfl, rfl⟩

/-- C5 (amended): with allocation assumed to succeed, each of the eight `void`
functions reaches its normal return for every argument and from every world,
and `calculateArea(width)` of either file reaches its normal return for every
`width` with `-51130563 ≤ width ≤ 51130563`. -/
theorem C5_functions_return_normally (x width : Int) (w : World)
    (h : -51130563 ≤ width ∧ width ≤ 51130563) :
    (∃ r, bad_code.unusedVariableExample w = .ok r) ∧
    (∃ r, bad_code.memoryLeakExample w = .ok r) ∧
    (∃ r, bad_code.multipleDeclarations w = .ok r) ∧
    (∃ r, bad_code.duplicateBranches x w = .ok r) ∧
    (∃ r, good_code.noUnusedVariables w = .ok r) ∧
    (∃ r, good_code.noMemoryLeak w = .ok r) ∧
    (∃ r, good_code.separateDeclarations w = .ok r) ∧
    (∃ r, good_code.noDuplicateBranches x w = .ok r) ∧
    (∃ r, bad_code.calculateArea width w = .ok r) ∧
    (∃ r, good_code.calculateArea width w = .ok r) :=
  ⟨⟨_, bad_code.unusedVariableExample_run w⟩,
   ⟨_, bad_code.memoryLeakExample_run w⟩,
   ⟨_, bad_code.multipleDeclarations_run w⟩,
   ⟨_, bad_code.duplicateBranches_run x w⟩,
   ⟨_, good_code.noUnusedVariables_run w⟩,
   ⟨_, good_code.noMemoryLeak_run w⟩,
   ⟨_, good_code.separateDeclarations_run w⟩,
   ⟨_, good_code.noDuplicateBranches_run x w⟩,
   ⟨_, bad_code.calculateArea_run_bad width w ((inInt32_mul_42_iff width).mpr h)⟩,
   ⟨_, good_code.calculateArea_run_good width w ((inInt32_mul_42_iff width).mpr h)⟩⟩

/-- C5 (amended), instance: at the largest admitted width, 51130563,
`calculateArea` of `good_code.cpp` returns normally. -/
theorem C5_functions_return_normally_witness :
    ((-51130563 : Int) ≤ 51130563 ∧ (51130563 : Int) ≤ 51130563) ∧
      ∃ r, good_code.calculateArea 51130563 World.init = .ok r :=
  ⟨by decide,
   (C5_functions_return_normally 0 51130563 World.init (by decide)).2.2.2.2.2.2.2.2.2⟩

/-- C6: for any two arguments `x` and `y` (and the same starting world),
`duplicateBranches(x)` and `duplicateBranches(y)` do the same thing, namely
append the single line "Big number"; in particular so do both sides of the
`x > 10` test at its boundary, 10 and 11. -/
theorem C6_duplicateBranches_ignores_argument (x y : Int) (w : World) :
    bad_code.duplicateBranches x w = bad_code.duplicateBranches y w ∧
      bad_code.duplicateBranches x w = .ok ((), ⟨w.stdout ++ "Big number" ++ "\n", w.heap⟩) ∧
      bad_code.duplicateBranches 10 w = bad_code.duplicateBranches 11 w := by
  simp only [bad_code.duplicateBranches_run, and_self]

/-- C7: for every `x` and every starting world, `noDuplicateBranches(x)` does
exactly what `duplicateBranches(x)` does, and `separateDeclarations()` exactly
what `multipleDeclarations()` does, which is to append the line "000". -/
theorem C7_rewrites_equivalent (x : Int) (w : World) :
    good_code.noDuplicateBranches x w = bad_code.duplicateBranches x w ∧
      good_code.separateDeclarations w = bad_code.multipleDeclarations w ∧
      good_code.separateDeclarations w = .ok ((), ⟨w.stdout ++ "000" ++ "\n", w.heap⟩) := by
  simp only [good_code.noDuplicateBranches_run, bad_code.duplicateBranches_run,
    good_code.separateDeclarations_run, bad_code.multipleDeclarations_run, and_self]

/-- C8: for every `width` (in particular every 32-bit one) and every world,
`calculateArea` of `good_code.cpp` gives the same outcome as `calculateArea` of
`bad_code.cpp`, both when overflow is undefined and when it wraps. -/
theorem C8_calculateArea_same (width : Int) (w : World) :
    good_code.calculateArea width w = bad_code.calculateArea width w ∧
      good_code.calculateArea_wrapping width w = bad_code.calculateArea_wrapping width w :=
  ⟨rfl, rfl⟩

/-- C9: from any world, `memoryLeakExample()` returns with the heap it was
called with plus exactly one allocation, at an address that was not live
before and that holds 5, whereas `noMemoryLeak()` returns with the heap it
was called with; the first prints "Memory leak: 5", the second
"Sem memory leak: 5". -/
theorem C9_leak_and_no_leak (w : World) :
    (∃ p : Nat, ¬ Heap.live w.heap p ∧
      bad_code.memoryLeakExample w =
        .ok ((), ⟨w.stdout ++ "Memory leak: 5" ++ "\n", (p, 5) :: w.heap⟩) ∧
      Heap.read ((p, 5) :: w.heap) p = some 5 ∧
      (∀ q, q ≠ p → Heap.read ((p, 5) :: w.heap) q = Heap.read w.heap q) ∧
      ((p, 5) :: w.heap).length = w.heap.length + 1) ∧
    good_code.noMemoryLeak w =
      .ok ((), ⟨w.stdout ++ "Sem memory leak: 5" ++ "\n", w.heap⟩) := by
  refine ⟨⟨Heap.fresh w.heap, ?_, bad_code.memoryLeakExample_run w, ?_, ?_, rfl⟩,
    good_code.noMemoryLeak_run w⟩
  · simp [Heap.live, Heap.read_fresh]
  · simp [Heap.read]
  · intro q hq
    simp [Heap.read, Ne.symm hq]

/-- C10: the product `width * 42` computed by `calculateArea` is representable,
so that the function returns it, exactly when `-51130563 ≤ width ≤ 51130563`;
for any other width the function stops at a signed overflow (at 51130564 the
product is 2147483688, above `INT_MAX`); with a wrapping product the function
returns the one value of the `int` range congruent to `width * 42` modulo
`2^32` (at 51130564, that is -2147483608). -/
theorem C10_calculateArea_range (width : Int) (w : World) :
    (inInt32 (width * 42) ↔ -51130563 ≤ width ∧ width ≤ 51130563) ∧
    (bad_code.calculateArea width w = .ok (width * 42, w) ↔
      -51130563 ≤ width ∧ width ≤ 51130563) ∧
    (good_code.calculateArea width w = .ok (width * 42, w) ↔
      -51130563 ≤ width ∧ width ≤ 51130563) ∧
    ((-51130563 ≤ width ∧ width ≤ 51130563) ∨
      (bad_code.calculateArea width w = .error .signedOverflow ∧
        good_code.calculateArea width w = .error .signedOverflow)) ∧
    ((51130564 : Int) * 42 = 2147483688 ∧ INT_MAX < 2147483688 ∧
      bad_code.calculateArea_wrapping 51130564 w = .ok (-2147483608, w)) ∧
    (∃ r, bad_code.calculateArea_wrapping width w = .ok (r, w) ∧
      good_code.calculateArea_wrapping width w = .ok (r, w) ∧
      inInt32 r ∧ (r - width * 42) % 4294967296 = 0 ∧
      ∀ s, inInt32 s → (s - width * 42) % 4294967296 = 0 → s = r) := by
  have hiff := inInt32_mul_42_iff width
  have hcalc : ∀ (c : Prog Int), c = mul_int width 42 →
      (c w = .ok (width * 42, w) ↔ -51130563 ≤ width ∧ width ≤ 51130563) := by
    intro c hc
    subst hc
    constructor
    · intro hok
      by_cases hr : inInt32 (width * 42)
      · exact hiff.mp hr
      · rw [mul_int_overflow width 42 w hr] at hok
        cases hok
    · intro hr
      exact mul_int_ok width 42 w (hiff.mpr hr)
  refine ⟨hiff, hcalc _ rfl, hcalc _ rfl, ?_, ⟨by decide, by decide, rfl⟩, ?_⟩
  · by_cases hr : -51130563 ≤ width ∧ width ≤ 51130563
    · exact Or.inl hr
    · have hn : ¬ inInt32 (width * 42) := fun h => hr (hiff.mp h)
      exact Or.inr ⟨mul_int_overflow width 42 w hn, mul_int_overflow width 42 w hn⟩
  · refine ⟨wrapInt32 (width * 42), rfl, rfl, (wrapInt32_spec _).1, (wrapInt32_spec _).2, ?_⟩
    intro s hs hmod
    have h1 := (wrapInt32_spec (width * 42)).1
    have h2 := (wrapInt32_spec (width * 42)).2
    unfold inInt32 INT_MIN INT_MAX at hs h1
    omega
